import Mathlib

/-!
Verification of the authentication router of the t3 monorepo
(`packages/api/src/routes/user.ts`), its email helper
(`packages/api/src/email.ts`) and the per-request context builder
(`packages/api/src/trpc.ts`).

The store (Prisma over Users, Accounts, EmailVerificationTokens) is
embedded as an explicit state record of lists; each tRPC mutation becomes
a pure function from inputs, ambient values that are nondeterministic in
the source (current time, the freshly generated random token string, the
outcome of the outbound email send, the three GitHub HTTP responses) and
the store state to a result (`Except ApiError _`) paired with the new
store state.  JavaScript truthiness on nullable strings (`!x`, `x || y`,
`!!x`, `x ? a : b`) is modelled explicitly, since the source relies on it.
The JWT signer is opaque in the source; a session token is embedded as the
payload it carries (`{userId}`).
-/

namespace T3

/-- JS truthiness of a nullable string: `null`/`undefined` and `""` are
falsy, every other string is truthy. -/
def strTruthy : Option String → Bool
  | none => false
  | some s => s ≠ ""

/-- JS `a || b` on a nullable string with a string fallback: yields `b`
when `a` is falsy. -/
def jsOr (a : Option String) (b : String) : String :=
  match a with
  | none => b
  | some s => if s = "" then b else s

/-- User row (`model User`): id, nullable email, nullable password hash,
emailVerified flag, nullable display name and avatar URL. -/
structure User where
  id : Nat
  email : Option String
  passwordHash : Option String
  emailVerified : Bool
  name : Option String
  avatarUrl : Option String
  deriving Repr, DecidableEq

/-- Account row (`model Account`): a provider-linked credential owned by a
user. -/
structure Account where
  id : Nat
  userId : Nat
  provider : String
  providerAccountId : String
  accessToken : String
  deriving Repr, DecidableEq

/-- EmailVerificationToken row: single-use token gating verification of
`email`, absolute expiry timestamp in milliseconds. -/
structure VerificationToken where
  id : Nat
  token : String
  email : String
  expiresAt : Nat
  deriving Repr, DecidableEq

/-- The persistent store: the three tables plus a fresh-id counter. -/
structure DB where
  users : List User
  accounts : List Account
  tokens : List VerificationToken
  nextId : Nat
  deriving Repr, DecidableEq

/-- The empty store. -/
def DB.empty : DB := ⟨[], [], [], 0⟩

/-- `prismaClient.user.findFirst({where: {email}})` /
`findUnique({where: {email}})`: first user whose email equals the given
string. -/
def DB.findUserByEmail (db : DB) (email : String) : Option User :=
  db.users.find? (fun u => u.email == some email)

/-- `prismaClient.user.findUnique({where: {id}})`. -/
def DB.findUserById (db : DB) (id : Nat) : Option User :=
  db.users.find? (fun u => u.id == id)

/-- `prismaClient.user.create({data})`: inserts a row with a fresh id and
returns it. -/
def DB.createUser (db : DB) (email passwordHash : Option String)
    (emailVerified : Bool) (name avatarUrl : Option String) : User × DB :=
  let u : User :=
    { id := db.nextId, email := email, passwordHash := passwordHash,
      emailVerified := emailVerified, name := name, avatarUrl := avatarUrl }
  (u, { db with users := db.users ++ [u], nextId := db.nextId + 1 })

/-- `prismaClient.user.update({where: {id}, data})`: replaces every row
carrying `id` by `f` applied to it (ids are unique in the store, so this
is the single matched row). -/
def DB.updateUser (db : DB) (id : Nat) (f : User → User) : DB :=
  { db with users := db.users.map (fun u => if u.id == id then f u else u) }

/-- `prismaClient.account.findUnique({where:
{provider_providerAccountId}})`. -/
def DB.findAccount (db : DB) (provider providerAccountId : String) :
    Option Account :=
  db.accounts.find?
    (fun a => a.provider == provider && a.providerAccountId == providerAccountId)

/-- `prismaClient.account.create({data})`. -/
def DB.createAccount (db : DB) (userId : Nat)
    (provider providerAccountId accessToken : String) : Account × DB :=
  let a : Account :=
    { id := db.nextId, userId := userId, provider := provider,
      providerAccountId := providerAccountId, accessToken := accessToken }
  (a, { db with accounts := db.accounts ++ [a], nextId := db.nextId + 1 })

/-- `prismaClient.account.update({where: {id}, data: {accessToken}})`. -/
def DB.updateAccountToken (db : DB) (id : Nat) (accessToken : String) : DB :=
  let upd := fun (a : Account) =>
    if a.id == id then { a with accessToken := accessToken } else a
  { db with accounts := db.accounts.map upd }

/-- `prismaClient.user.create` with a nested `accounts: {create: ...}`:
the user and its first account are inserted atomically. -/
def DB.createUserWithAccount (db : DB) (email : Option String)
    (emailVerified : Bool) (name avatarUrl : Option String)
    (provider providerAccountId accessToken : String) : User × DB :=
  let u : User :=
    { id := db.nextId, email := email, passwordHash := none,
      emailVerified := emailVerified, name := name, avatarUrl := avatarUrl }
  let a : Account :=
    { id := db.nextId + 1, userId := u.id, provider := provider,
      providerAccountId := providerAccountId, accessToken := accessToken }
  let db2 : DB :=
    { db with users := db.users ++ [u], accounts := db.accounts ++ [a],
              nextId := db.nextId + 2 }
  (u, db2)

/-- `prismaClient.emailVerificationToken.findUnique({where: {token}})`. -/
def DB.findToken (db : DB) (token : String) : Option VerificationToken :=
  db.tokens.find? (fun t => t.token == token)

/-- `prismaClient.emailVerificationToken.deleteMany({where: {email}})`. -/
def DB.deleteTokensFor (db : DB) (email : String) : DB :=
  { db with tokens := db.tokens.filter (fun t => t.email != email) }

/-- `prismaClient.emailVerificationToken.create({data})`. -/
def DB.createToken (db : DB) (token email : String) (expiresAt : Nat) :
    VerificationToken × DB :=
  let t : VerificationToken :=
    { id := db.nextId, token := token, email := email, expiresAt := expiresAt }
  (t, { db with tokens := db.tokens ++ [t], nextId := db.nextId + 1 })

/-- `prismaClient.emailVerificationToken.delete({where: {id}})`. -/
def DB.deleteTokenById (db : DB) (id : Nat) : DB :=
  { db with tokens := db.tokens.filter (fun t => t.id != id) }

/-- Live verification tokens recorded for an email. -/
def DB.tokensFor (db : DB) (email : String) : List VerificationToken :=
  db.tokens.filter (fun t => t.email == email)

/-- tRPC error codes used by the router. -/
inductive ErrCode
  | CONFLICT
  | NOT_FOUND
  | BAD_REQUEST
  | FORBIDDEN
  | UNAUTHORIZED
  | INTERNAL_SERVER_ERROR
  deriving Repr, DecidableEq

/-- A thrown `TRPCError`: code plus human-readable message. -/
structure ApiError where
  code : ErrCode
  message : String
  deriving Repr, DecidableEq

/-- A signed session JWT, embedded as the payload it carries
(`jwt.sign({userId: ...}, JWT_SECRET, {expiresIn: "1h"})`). -/
structure SessionToken where
  userId : Nat
  deriving Repr, DecidableEq

/-- `Bun.password.hash`, embedded as an injective tagging function: the
claims only distinguish whether `verify` matches the stored digest. -/
def hashPassword (password : String) : String :=
  "argon2id$" ++ password

/-- `Bun.password.verify password digest`: true exactly when the digest
was produced from this password. -/
def verifyPassword (password digest : String) : Bool :=
  hashPassword password == digest

/-- Outcome of the underlying `resend.emails.send` call in
`packages/api/src/email.ts`: delivered, resolved with an `error` field, or
rejected with an exception. -/
inductive SendOutcome
  | delivered
  | apiError (msg : String)
  | exception (msg : String)
  deriving Repr, DecidableEq

/-- Return value of `sendVerificationEmail`. -/
structure EmailResult where
  success : Bool
  error : Option String
  deriving Repr, DecidableEq

/-- `sendVerificationEmail` (packages/api/src/email.ts): wraps the send in
try/catch, so it never rejects; an `error` field or a thrown exception
both come back as `{success: false, error}`. -/
def sendVerificationEmail (outcome : SendOutcome) : EmailResult :=
  match outcome with
  | .delivered => { success := true, error := none }
  | .apiError m => { success := false, error := some m }
  | .exception m => { success := false, error := some m }

/-- Success body of `signup`. -/
structure SignupOut where
  message : String
  email : String
  deriving Repr, DecidableEq

/-- Success body of `resendVerification`. -/
structure MsgOut where
  message : String
  deriving Repr, DecidableEq

/-- 24 hours in milliseconds: token lifetime. -/
def dayMs : Nat := 24 * 60 * 60 * 1000

/-- Success message returned by `signup`. -/
def signupMessage : String := "Please check your email to verify your account"

/-- Message returned by `resendVerification` whether or not the account
exists. -/
def resendMessage : String :=
  "If an account exists, a verification email has been sent"

/-- The `signup` mutation.  `tokenStr` stands for the random string
produced by `generateVerificationToken()`, `now` for `Date.now()` and
`sendOutcome` for the eventual outcome of the dispatched email.  The
dispatch is fire-and-forget in the source (`.then(log).catch(log)`); its
result is bound but never consulted. -/
def signup (email password tokenStr : String) (now : Nat)
    (sendOutcome : SendOutcome) (db : DB) :
    Except ApiError SignupOut × DB :=
  match db.findUserByEmail email with
  | some _ =>
    (.error { code := .CONFLICT, message := "user already exists, try signing-in" }, db)
  | none =>
    let hash := hashPassword password
    let (_, db) := db.createUser (some email) (some hash) false none none
    let expiresAt := now + dayMs
    let db := db.deleteTokensFor email
    let (_, db) := db.createToken tokenStr email expiresAt
    let _background := sendVerificationEmail sendOutcome
    (.ok { message := signupMessage, email := email }, db)

/-- The `verifyEmail` mutation: look the token up, delete-and-reject when
expired, reject when the user is gone, otherwise mark the user verified,
delete the token and mint a session JWT. -/
def verifyEmail (token : String) (now : Nat) (db : DB) :
    Except ApiError SessionToken × DB :=
  match db.findToken token with
  | none =>
    (.error { code := .NOT_FOUND, message := "Invalid or expired verification link" }, db)
  | some vt =>
    if vt.expiresAt < now then
      (.error { code := .BAD_REQUEST,
                message := "Verification link has expired. Please sign up again." },
       db.deleteTokenById vt.id)
    else
      match db.findUserByEmail vt.email with
      | none =>
        (.error { code := .NOT_FOUND, message := "User not found" }, db)
      | some user =>
        let db := db.updateUser user.id (fun u => { u with emailVerified := true })
        let db := db.deleteTokenById vt.id
        (.ok { userId := user.id }, db)

/-- The `resendVerification` mutation.  The email send is awaited; its
return value (an `EmailResult`, never a rejection) is discarded. -/
def resendVerification (email tokenStr : String) (now : Nat)
    (sendOutcome : SendOutcome) (db : DB) :
    Except ApiError MsgOut × DB :=
  match db.findUserByEmail email with
  | none =>
    (.ok { message := resendMessage }, db)
  | some user =>
    if user.emailVerified then
      (.error { code := .BAD_REQUEST, message := "Email is already verified" }, db)
    else
      let expiresAt := now + dayMs
      let db := db.deleteTokensFor email
      let (_, db) := db.createToken tokenStr email expiresAt
      let _awaited := sendVerificationEmail sendOutcome
      (.ok { message := resendMessage }, db)

/-- The `login` mutation.  `!user || !user.passwordHash` uses JS
truthiness (a null or empty hash both read as absent). -/
def login (email password : String) (db : DB) :
    Except ApiError SessionToken :=
  match db.findUserByEmail email with
  | none => .error { code := .NOT_FOUND, message := "user not found" }
  | some user =>
    if !(strTruthy user.passwordHash) then
      .error { code := .NOT_FOUND, message := "user not found" }
    else if !user.emailVerified then
      .error { code := .FORBIDDEN,
               message := "Please verify your email before logging in" }
    else if !(verifyPassword password (user.passwordHash.getD "")) then
      .error { code := .UNAUTHORIZED, message := "invalid credentials" }
    else
      .ok { userId := user.id }

/-- Body of the GitHub token-endpoint response
(`POST GITHUB_TOKEN_URL`): nullable `access_token`, `error` and
`error_description` fields. -/
structure GitHubTokenResponse where
  access_token : Option String
  error : Option String
  error_description : Option String
  deriving Repr, DecidableEq

/-- Body of the GitHub profile response (`GET GITHUB_USER_URL`). -/
structure GitHubUser where
  id : Nat
  login : String
  name : Option String
  email : Option String
  avatar_url : String
  deriving Repr, DecidableEq

/-- One entry of the GitHub emails response (`GET GITHUB_EMAILS_URL`). -/
structure GitHubEmail where
  email : String
  primary : Bool
  verified : Bool
  deriving Repr, DecidableEq

/-- An HTTP fetch that either returned `ok` with a parsed body or a
non-success status. -/
inductive Fetch (α : Type)
  | ok (val : α)
  | fail
  deriving Repr, DecidableEq

/-- The primary-email resolution inside `githubAuth`: start from the
profile's raw `email`; when the emails fetch succeeded, prefer the entry
with `primary && verified`, else the first `verified` entry, else keep the
profile value. -/
def resolvePrimaryEmail (profileEmail : Option String)
    (emailsResp : Fetch (List GitHubEmail)) : Option String :=
  match emailsResp with
  | .fail => profileEmail
  | .ok emails =>
    match emails.find? (fun e => e.primary && e.verified) with
    | some p => some p.email
    | none =>
      match emails.find? (fun e => e.verified) with
      | some v => some v.email
      | none => profileEmail

/-- The `githubAuth` mutation.  The three upstream HTTP responses are
inputs; `tokenData.error || !tokenData.access_token` and the
`primaryEmail ? ... : null`, `!!primaryEmail`, `x || y` constructs use JS
truthiness.  Reconciliation order: existing Account for (github, id)
first, then existing User by resolved email, then brand-new User with a
nested Account. -/
def githubAuth (tokenResp : GitHubTokenResponse)
    (userResp : Fetch GitHubUser) (emailsResp : Fetch (List GitHubEmail))
    (db : DB) : Except ApiError SessionToken × DB :=
  if strTruthy tokenResp.error || !(strTruthy tokenResp.access_token) then
    (.error { code := .BAD_REQUEST,
              message := jsOr tokenResp.error_description
                "Failed to exchange code for token" }, db)
  else
    let accessToken := tokenResp.access_token.getD ""
    match userResp with
    | .fail =>
      (.error { code := .INTERNAL_SERVER_ERROR,
                message := "Failed to fetch GitHub user profile" }, db)
    | .ok githubUser =>
      let primaryEmail := resolvePrimaryEmail githubUser.email emailsResp
      let githubId := toString githubUser.id
      match db.findAccount "github" githubId with
      | some existingAccount =>
        match db.findUserById existingAccount.userId with
        | none =>
          -- `prisma.user.update` on a vanished row rejects (P2025); tRPC
          -- surfaces an internal error.  Unreachable for a store whose
          -- accounts reference existing users.
          (.error { code := .INTERNAL_SERVER_ERROR,
                    message := "Record to update not found" }, db)
        | some linkedUser =>
          let newEmail :=
            if strTruthy primaryEmail && !(strTruthy linkedUser.email) then
              primaryEmail
            else linkedUser.email
          let db := db.updateUser existingAccount.userId (fun u =>
            { u with name := some (jsOr githubUser.name githubUser.login),
                     avatarUrl := some githubUser.avatar_url,
                     email := newEmail })
          let db := db.updateAccountToken existingAccount.id accessToken
          (.ok { userId := existingAccount.userId }, db)
      | none =>
        let existingUser :=
          if strTruthy primaryEmail then
            db.users.find? (fun u => u.email == primaryEmail)
          else none
        match existingUser with
        | some eu =>
          let (_, db) := db.createAccount eu.id "github" githubId accessToken
          let db := db.updateUser eu.id (fun u =>
            { u with name := some (jsOr eu.name (jsOr githubUser.name githubUser.login)),
                     avatarUrl := some (jsOr eu.avatarUrl githubUser.avatar_url) })
          (.ok { userId := eu.id }, db)
        | none =>
          let newEmail := jsOr primaryEmail ("github_" ++ githubId ++ "@placeholder.local")
          let (newUser, db) := db.createUserWithAccount (some newEmail)
            (strTruthy primaryEmail)
            (some (jsOr githubUser.name githubUser.login))
            (some githubUser.avatar_url) "github" githubId accessToken
          (.ok { userId := newUser.id }, db)

/-- Per-request tRPC context (`packages/api/src/trpc.ts`): the verified
bearer identity or null. -/
structure Context where
  user : Option Nat
  deriving Repr, DecidableEq

/-- `authHeader.startsWith("Bearer ")`: the first seven characters equal
the `Bearer ` prefix. -/
def hasBearerPrefix (h : String) : Bool :=
  h.take 7 == "Bearer "

/-- `createContext`: reads the `authorization` header; without a
`Bearer `-prefixed value it returns a null user; otherwise it verifies
`header.slice(7)` (`jwt.verify` failures are caught and map to a null
user as well).  `jwtVerify` stands for the opaque
`jwt.verify(token, JWT_SECRET)` call: `some userId` when signature and
expiry check out, `none` when the call throws. -/
def createContext (jwtVerify : String → Option Nat)
    (authHeader : Option String) : Context :=
  match authHeader with
  | none => { user := none }
  | some h =>
    if hasBearerPrefix h then
      match jwtVerify (h.drop 7) with
      | some uid => { user := some uid }
      | none => { user := none }
    else
      { user := none }

/-! Helper lemmas about the store operations. -/

/-- Deleting every token of an email leaves none recorded for it. -/
theorem tokensFor_deleteTokensFor (db : DB) (e : String) :
    (db.deleteTokensFor e).tokensFor e = [] := by
  simp only [DB.tokensFor, DB.deleteTokensFor, List.filter_filter]
  rw [List.filter_eq_nil_iff]
  intro t _
  by_cases h : t.email = e <;> simp [h, bne]

/-- Creating a token appends it to the email's live-token list. -/
theorem tokensFor_createToken (db : DB) (tk e : String) (exp : Nat) :
    ((db.createToken tk e exp).2).tokensFor e =
      db.tokensFor e ++ [(db.createToken tk e exp).1] := by
  simp [DB.tokensFor, DB.createToken, List.filter_append]

/-- `resendVerification` never touches the user table. -/
theorem users_resendVerification (email tk : String) (n : Nat)
    (o : SendOutcome) (db : DB) :
    ((resendVerification email tk n o db).2).users = db.users := by
  unfold resendVerification
  cases hf : db.findUserByEmail email with
  | none => simp
  | some u =>
    by_cases hv : u.emailVerified <;>
      simp [hv, DB.deleteTokensFor, DB.createToken]

/-- A matched row's image under an update is in the updated table. -/
theorem mem_updateUser_of_mem (db : DB) (id : Nat) (f : User → User)
    (u : User) (hm : u ∈ db.users) (hid : u.id = id) :
    f u ∈ (db.updateUser id f).users := by
  simp only [DB.updateUser]
  exact List.mem_map.mpr ⟨u, hm, by simp [hid]⟩

/-- A matched account's image under a token update is in the updated
table. -/
theorem mem_updateAccountToken_of_mem (db : DB) (id : Nat) (tk : String)
    (a : Account) (hm : a ∈ db.accounts) (hid : a.id = id) :
    { a with accessToken := tk } ∈ (db.updateAccountToken id tk).accounts := by
  simp only [DB.updateAccountToken]
  exact List.mem_map.mpr ⟨a, hm, by simp [hid]⟩

/-- After a successful resend the user row found for the email is
unchanged. -/
theorem findUserByEmail_resendVerification (email tk : String) (n : Nat)
    (o : SendOutcome) (db : DB) :
    ((resendVerification email tk n o db).2).findUserByEmail email =
      db.findUserByEmail email := by
  rw [DB.findUserByEmail, DB.findUserByEmail, users_resendVerification]

/-! Theorems for the frozen claims. -/

/-- C4: a `verifyEmail` call whose token record exists but has
`expiresAt` strictly before `now` fails BAD_REQUEST (expired) and deletes
the expired record before returning, so an immediately repeated call with
the same token fails NOT_FOUND (the store no longer holds the token) and
leaves the store unchanged.  `huniq` reflects the `@unique` constraint on
the token column. -/
theorem c4_expired_token_deleted_before_error
    (tok : String) (now : Nat) (db : DB) (vt : VerificationToken)
    (hf : db.findToken tok = some vt)
    (hexp : vt.expiresAt < now)
    (huniq : ∀ t ∈ db.tokens, t.token = tok → t.id = vt.id) :
    verifyEmail tok now db =
      (.error { code := .BAD_REQUEST,
                message := "Verification link has expired. Please sign up again." },
       db.deleteTokenById vt.id) ∧
    verifyEmail tok now (db.deleteTokenById vt.id) =
      (.error { code := .NOT_FOUND, message := "Invalid or expired verification link" },
       db.deleteTokenById vt.id) := by
  have hnone : (db.deleteTokenById vt.id).findToken tok = none := by
    rw [DB.findToken, List.find?_eq_none]
    intro t ht hbeq
    have hmem := List.mem_filter.mp ht
    have htok : t.token = tok := by simpa using hbeq
    have : t.id = vt.id := huniq t hmem.1 htok
    simp [DB.deleteTokenById, this, bne] at hmem
  constructor
  · simp [verifyEmail, hf, hexp]
  · simp [verifyEmail, hnone]

/-- C5: both token-creating operations (`signup` on a fresh email,
`resendVerification` for an existing unverified user) first delete every
existing token for the email and then create one, leaving exactly one
live token; in particular two successive resends leave exactly one. -/
theorem c5_at_most_one_live_token :
    (∀ email pw tk n o (db : DB), db.findUserByEmail email = none →
      (((signup email pw tk n o db).2).tokensFor email).length = 1) ∧
    (∀ email tk n o (db : DB) u, db.findUserByEmail email = some u →
      u.emailVerified = false →
      (((resendVerification email tk n o db).2).tokensFor email).length = 1) ∧
    (∀ email tk1 tk2 n1 n2 o1 o2 (db : DB) u,
      db.findUserByEmail email = some u →
      u.emailVerified = false →
      (((resendVerification email tk2 n2 o2
          ((resendVerification email tk1 n1 o1 db).2)).2).tokensFor email).length = 1) := by
  have hres : ∀ email tk n o (db : DB) u, db.findUserByEmail email = some u →
      u.emailVerified = false →
      (((resendVerification email tk n o db).2).tokensFor email).length = 1 := by
    intro email tk n o db u hu hv
    simp [resendVerification, hu, hv, tokensFor_createToken, tokensFor_deleteTokensFor]
  refine ⟨?_, hres, ?_⟩
  · intro email pw tk n o db h
    simp [signup, h, tokensFor_createToken, tokensFor_deleteTokensFor]
  · intro email tk1 tk2 n1 n2 o1 o2 db u hu hv
    have hu2 : ((resendVerification email tk1 n1 o1 db).2).findUserByEmail email
        = some u := by
      rw [findUserByEmail_resendVerification]; exact hu
    exact hres email tk2 n2 o2 _ u hu2 hv

/-- C5 witness: concrete store with one unverified user; instantiates all
three conjuncts. -/
theorem c5_at_most_one_live_token_witness :
    ((({ users := [{ id := 0, email := some "a@b.com", passwordHash := none,
                     emailVerified := false, name := none, avatarUrl := none }],
         accounts := [], tokens := [], nextId := 1 } : DB).findUserByEmail "a@b.com")
      = some { id := 0, email := some "a@b.com", passwordHash := none,
               emailVerified := false, name := none, avatarUrl := none }) ∧
    (((resendVerification "a@b.com" "tk2" 20 .delivered
        ((resendVerification "a@b.com" "tk1" 10 .delivered
          { users := [{ id := 0, email := some "a@b.com", passwordHash := none,
                        emailVerified := false, name := none, avatarUrl := none }],
            accounts := [], tokens := [], nextId := 1 }).2)).2).tokensFor "a@b.com").length = 1 :=
  ⟨rfl, c5_at_most_one_live_token.2.2 "a@b.com" "tk1" "tk2" 10 20 .delivered .delivered
    _ _ rfl rfl⟩

/-- C7: signing up with a fresh email succeeds with the informational
message and the email (no session token is part of the output type),
creates an unverified user carrying the password hash, and leaves exactly
one live verification token; with an already-used email it fails CONFLICT
and leaves the store untouched. -/
theorem c7_signup_fresh_and_conflict
    (email pw tk : String) (n : Nat) (o : SendOutcome) (db : DB) :
    (db.findUserByEmail email = none →
      (signup email pw tk n o db).1 =
        .ok { message := signupMessage, email := email } ∧
      (∃ u, u ∈ ((signup email pw tk n o db).2).users ∧
        u.email = some email ∧ u.emailVerified = false ∧
        u.passwordHash = some (hashPassword pw)) ∧
      (((signup email pw tk n o db).2).tokensFor email).length = 1) ∧
    (∀ u, db.findUserByEmail email = some u →
      signup email pw tk n o db =
        (.error { code := .CONFLICT, message := "user already exists, try signing-in" },
         db)) := by
  constructor
  · intro h
    refine ⟨by simp [signup, h], ?_, ?_⟩
    · refine ⟨{ id := db.nextId, email := some email,
                passwordHash := some (hashPassword pw), emailVerified := false,
                name := none, avatarUrl := none }, ?_, rfl, rfl, rfl⟩
      simp [signup, h, DB.createUser, DB.deleteTokensFor, DB.createToken]
    · simp [signup, h, tokensFor_createToken, tokensFor_deleteTokensFor]
  · intro u hu
    simp [signup, hu]

/-- C7 witness: empty store (fresh email) and a store holding the user
(conflict). -/
theorem c7_signup_fresh_and_conflict_witness :
    ((DB.empty.findUserByEmail "a@b.com" = none) ∧
      (signup "a@b.com" "Test123!@#" "tk" 0 .delivered DB.empty).1 =
        .ok { message := signupMessage, email := "a@b.com" }) ∧
    (signup "a@b.com" "Test123!@#" "tk" 0 .delivered
        { users := [{ id := 0, email := some "a@b.com", passwordHash := none,
                      emailVerified := false, name := none, avatarUrl := none }],
          accounts := [], tokens := [], nextId := 1 }).1 =
      .error { code := .CONFLICT, message := "user already exists, try signing-in" } := by
  refine ⟨⟨rfl, ((c7_signup_fresh_and_conflict "a@b.com" "Test123!@#" "tk" 0
    .delivered DB.empty).1 rfl).1⟩, ?_⟩
  have := (c7_signup_fresh_and_conflict "a@b.com" "Test123!@#" "tk" 0 .delivered
    { users := [{ id := 0, email := some "a@b.com", passwordHash := none,
                  emailVerified := false, name := none, avatarUrl := none }],
      accounts := [], tokens := [], nextId := 1 }).2 _ rfl
  rw [this]

/-- C10: a `verifyEmail` call whose token exists and is unexpired but
whose email matches no user fails NOT_FOUND and changes nothing — the
token stays live; on the success path the store becomes the user update
(emailVerified := true) followed by the token deletion, in that order. -/
theorem c10_verify_missing_user_no_state_change
    (tok : String) (now : Nat) (db : DB) (vt : VerificationToken)
    (hf : db.findToken tok = some vt)
    (hexp : ¬ vt.expiresAt < now) :
    (db.findUserByEmail vt.email = none →
      verifyEmail tok now db =
        (.error { code := .NOT_FOUND, message := "User not found" }, db) ∧
      ((verifyEmail tok now db).2).findToken tok = some vt) ∧
    (∀ u, db.findUserByEmail vt.email = some u →
      verifyEmail tok now db =
        (.ok { userId := u.id },
         ((db.updateUser u.id (fun x => { x with emailVerified := true })).deleteTokenById
           vt.id))) := by
  constructor
  · intro h
    have hrun : verifyEmail tok now db =
        (.error { code := .NOT_FOUND, message := "User not found" }, db) := by
      simp [verifyEmail, hf, hexp, h]
    exact ⟨hrun, by rw [hrun]; exact hf⟩
  · intro u hu
    simp [verifyEmail, hf, hexp, hu]

/-- C10 witness: token for an email with no user; store unchanged. -/
theorem c10_verify_missing_user_no_state_change_witness :
    (({ users := [], accounts := [],
        tokens := [{ id := 0, token := "tk", email := "a@b.com", expiresAt := 99 }],
        nextId := 1 } : DB).findToken "tk"
      = some { id := 0, token := "tk", email := "a@b.com", expiresAt := 99 }) ∧
    verifyEmail "tk" 50
      { users := [], accounts := [],
        tokens := [{ id := 0, token := "tk", email := "a@b.com", expiresAt := 99 }],
        nextId := 1 } =
      (.error { code := .NOT_FOUND, message := "User not found" },
       { users := [], accounts := [],
         tokens := [{ id := 0, token := "tk", email := "a@b.com", expiresAt := 99 }],
         nextId := 1 }) :=
  ⟨rfl, ((c10_verify_missing_user_no_state_change "tk" 50
      { users := [], accounts := [],
        tokens := [{ id := 0, token := "tk", email := "a@b.com", expiresAt := 99 }],
        nextId := 1 }
      { id := 0, token := "tk", email := "a@b.com", expiresAt := 99 }
      rfl (by decide)).1 rfl).1⟩

/-- C4 witness: an expired token is removed and the replay fails
NOT_FOUND. -/
theorem c4_expired_token_deleted_before_error_witness :
    (({ users := [], accounts := [],
        tokens := [{ id := 0, token := "tk", email := "a@b.com", expiresAt := 5 }],
        nextId := 1 } : DB).findToken "tk"
      = some { id := 0, token := "tk", email := "a@b.com", expiresAt := 5 }) ∧
    (5 : Nat) < 10 ∧
    (verifyEmail "tk" 10
      { users := [], accounts := [],
        tokens := [{ id := 0, token := "tk", email := "a@b.com", expiresAt := 5 }],
        nextId := 1 }).1 =
      .error { code := .BAD_REQUEST,
               message := "Verification link has expired. Please sign up again." } := by
  have h := c4_expired_token_deleted_before_error "tk" 10
    { users := [], accounts := [],
      tokens := [{ id := 0, token := "tk", email := "a@b.com", expiresAt := 5 }],
      nextId := 1 }
    { id := 0, token := "tk", email := "a@b.com", expiresAt := 5 }
    rfl (by decide) (by decide)
  exact ⟨rfl, by decide, by rw [h.1]⟩

/-- C8: `githubAuth` resolves the primary email in the source's order:
the first entry with `primary && verified`; else the first `verified`
entry; else the profile's raw email (also used when the emails fetch
fails); on the spec's two-entry example the result is `x@x.com`. -/
theorem c8_primary_email_resolution :
    resolvePrimaryEmail (some "raw@r.com")
      (.ok [{ email := "x@x.com", primary := false, verified := true },
            { email := "y@y.com", primary := true, verified := false }])
      = some "x@x.com" ∧
    (∀ pe emails e, emails.find? (fun x => x.primary && x.verified) = some e →
      resolvePrimaryEmail pe (.ok emails) = some e.email) ∧
    (∀ pe emails e, emails.find? (fun x => x.primary && x.verified) = none →
      emails.find? (fun x => x.verified) = some e →
      resolvePrimaryEmail pe (.ok emails) = some e.email) ∧
    (∀ pe emails, emails.find? (fun x => x.primary && x.verified) = none →
      emails.find? (fun x => x.verified) = none →
      resolvePrimaryEmail pe (.ok emails) = pe) ∧
    (∀ pe, resolvePrimaryEmail pe .fail = pe) := by
  refine ⟨by decide, ?_, ?_, ?_, fun pe => rfl⟩
  · intro pe emails e h
    simp [resolvePrimaryEmail, h]
  · intro pe emails e h1 h2
    simp [resolvePrimaryEmail, h1, h2]
  · intro pe emails h1 h2
    simp [resolvePrimaryEmail, h1, h2]

/-- C8 witness: instantiates the primary+verified clause on a singleton
list. -/
theorem c8_primary_email_resolution_witness :
    ([{ email := "p@p.com", primary := true, verified := true }].find?
      (fun x : GitHubEmail => x.primary && x.verified)
      = some { email := "p@p.com", primary := true, verified := true }) ∧
    resolvePrimaryEmail none
      (.ok [{ email := "p@p.com", primary := true, verified := true }])
      = some "p@p.com" :=
  ⟨rfl, c8_primary_email_resolution.2.1 none
    [{ email := "p@p.com", primary := true, verified := true }]
    { email := "p@p.com", primary := true, verified := true } rfl⟩

/-- C9: context construction is total — it is a function yielding, for a
well-formed bearer header whose token verifies, the carried user id, and
the null user in every other case (absent header, non-Bearer header,
failing verification); in all cases it returns a context rather than
failing. -/
theorem c9_createContext_total (jwtVerify : String → Option Nat) :
    createContext jwtVerify none = { user := none } ∧
    (∀ h, hasBearerPrefix h = false →
      createContext jwtVerify (some h) = { user := none }) ∧
    (∀ h uid, hasBearerPrefix h = true → jwtVerify (h.drop 7) = some uid →
      createContext jwtVerify (some h) = { user := some uid }) ∧
    (∀ h, hasBearerPrefix h = true → jwtVerify (h.drop 7) = none →
      createContext jwtVerify (some h) = { user := none }) ∧
    (∀ h, createContext jwtVerify h = { user := none } ∨
      ∃ uid, createContext jwtVerify h = { user := some uid }) := by
  refine ⟨rfl, ?_, ?_, ?_, ?_⟩
  · intro h hpre
    simp [createContext, hpre]
  · intro h uid hpre hver
    simp [createContext, hpre, hver]
  · intro h hpre hver
    simp [createContext, hpre, hver]
  · intro h
    match h with
    | none => exact .inl rfl
    | some s =>
      by_cases hpre : hasBearerPrefix s
      · cases hver : jwtVerify (s.drop 7) with
        | none => exact .inl (by simp [createContext, hpre, hver])
        | some uid => exact .inr ⟨uid, by simp [createContext, hpre, hver]⟩
      · exact .inl (by simp [createContext, hpre])

/-- C9 witness: a concrete verifier, exercised on a valid bearer header,
a non-Bearer header and a failing token. -/
theorem c9_createContext_total_witness :
    createContext (fun s => if s = "good" then some 42 else none)
      (some "Bearer good") = { user := some 42 } ∧
    createContext (fun s => if s = "good" then some 42 else none)
      (some "Basic abc") = { user := none } ∧
    createContext (fun s => if s = "good" then some 42 else none)
      (some "Bearer bad") = { user := none } :=
  ⟨(c9_createContext_total (fun s => if s = "good" then some 42 else none)).2.2.1
      "Bearer good" 42 rfl rfl,
   (c9_createContext_total (fun s => if s = "good" then some 42 else none)).2.1
      "Basic abc" rfl,
   (c9_createContext_total (fun s => if s = "good" then some 42 else none)).2.2.2.1
      "Bearer bad" rfl rfl⟩

/-- C3: when an Account already exists for (github, providerId), the
flow returns a token for that account's user, creates no User and no
Account (both table lengths are unchanged), stores the fresh access token
on the existing Account, and refreshes the linked user's name and avatar,
overwriting the email only when the user has none and a primary email was
resolved — regardless of the resolved email. -/
theorem c3_account_lookup_precedence
    (tokenResp : GitHubTokenResponse) (guser : GitHubUser)
    (emailsResp : Fetch (List GitHubEmail)) (db : DB)
    (acct : Account) (linkedUser : User)
    (herr : strTruthy tokenResp.error = false)
    (hat : strTruthy tokenResp.access_token = true)
    (hA : db.findAccount "github" (toString guser.id) = some acct)
    (hU : db.findUserById acct.userId = some linkedUser) :
    (githubAuth tokenResp (.ok guser) emailsResp db).1 =
      .ok { userId := acct.userId } ∧
    ((githubAuth tokenResp (.ok guser) emailsResp db).2).users.length =
      db.users.length ∧
    ((githubAuth tokenResp (.ok guser) emailsResp db).2).accounts.length =
      db.accounts.length ∧
    { acct with accessToken := tokenResp.access_token.getD "" } ∈
      ((githubAuth tokenResp (.ok guser) emailsResp db).2).accounts ∧
    { linkedUser with
        name := some (jsOr guser.name guser.login),
        avatarUrl := some guser.avatar_url,
        email :=
          if strTruthy (resolvePrimaryEmail guser.email emailsResp)
              && !(strTruthy linkedUser.email) then
            resolvePrimaryEmail guser.email emailsResp
          else linkedUser.email } ∈
      ((githubAuth tokenResp (.ok guser) emailsResp db).2).users := by
  have hrun : githubAuth tokenResp (.ok guser) emailsResp db =
      (.ok { userId := acct.userId },
       (db.updateUser acct.userId (fun u =>
          { u with name := some (jsOr guser.name guser.login),
                   avatarUrl := some guser.avatar_url,
                   email :=
                     if strTruthy (resolvePrimaryEmail guser.email emailsResp)
                         && !(strTruthy linkedUser.email) then
                       resolvePrimaryEmail guser.email emailsResp
                     else linkedUser.email })).updateAccountToken acct.id
         (tokenResp.access_token.getD "")) := by
    simp [githubAuth, herr, hat, hA, hU]
  have hmemA : acct ∈ db.accounts := List.mem_of_find?_eq_some hA
  have hmemU : linkedUser ∈ db.users := List.mem_of_find?_eq_some hU
  have hidU : linkedUser.id = acct.userId := by
    have := List.find?_some hU
    simpa using this
  rw [hrun]
  refine ⟨rfl, ?_, ?_, ?_, ?_⟩
  · simp [DB.updateAccountToken, DB.updateUser]
  · simp [DB.updateAccountToken, DB.updateUser]
  · have : acct ∈ (db.updateUser acct.userId (fun u =>
        { u with name := some (jsOr guser.name guser.login),
                 avatarUrl := some guser.avatar_url,
                 email :=
                   if strTruthy (resolvePrimaryEmail guser.email emailsResp)
                       && !(strTruthy linkedUser.email) then
                     resolvePrimaryEmail guser.email emailsResp
                   else linkedUser.email })).accounts := by
      simpa [DB.updateUser] using hmemA
    exact mem_updateAccountToken_of_mem _ acct.id _ acct this rfl
  · have hm := mem_updateUser_of_mem db acct.userId (fun u =>
      { u with name := some (jsOr guser.name guser.login),
               avatarUrl := some guser.avatar_url,
               email :=
                 if strTruthy (resolvePrimaryEmail guser.email emailsResp)
                     && !(strTruthy linkedUser.email) then
                   resolvePrimaryEmail guser.email emailsResp
                 else linkedUser.email }) linkedUser hmemU hidU
    simpa [DB.updateAccountToken] using hm

/-- C3 witness: a store whose GitHub identity 12345 is already linked;
the second authentication keeps both table sizes unchanged. -/
theorem c3_account_lookup_precedence_witness :
    (({ users := [{ id := 1, email := some "a@b.com", passwordHash := none,
                    emailVerified := true, name := some "N", avatarUrl := none }],
        accounts := [{ id := 2, userId := 1, provider := "github",
                       providerAccountId := "12345", accessToken := "old" }],
        tokens := [], nextId := 3 } : DB).findAccount "github"
        (toString (12345 : Nat))
      = some { id := 2, userId := 1, provider := "github",
               providerAccountId := "12345", accessToken := "old" }) ∧
    (githubAuth { access_token := some "newtok", error := none, error_description := none }
      (.ok { id := 12345, login := "u", name := some "GN", email := some "a@b.com",
             avatar_url := "av" })
      (.ok [])
      { users := [{ id := 1, email := some "a@b.com", passwordHash := none,
                    emailVerified := true, name := some "N", avatarUrl := none }],
        accounts := [{ id := 2, userId := 1, provider := "github",
                       providerAccountId := "12345", accessToken := "old" }],
        tokens := [], nextId := 3 }).1 = .ok { userId := 1 } ∧
    ((githubAuth { access_token := some "newtok", error := none, error_description := none }
      (.ok { id := 12345, login := "u", name := some "GN", email := some "a@b.com",
             avatar_url := "av" })
      (.ok [])
      { users := [{ id := 1, email := some "a@b.com", passwordHash := none,
                    emailVerified := true, name := some "N", avatarUrl := none }],
        accounts := [{ id := 2, userId := 1, provider := "github",
                       providerAccountId := "12345", accessToken := "old" }],
        tokens := [], nextId := 3 }).2).accounts.length = 1 := by
  have h := c3_account_lookup_precedence
    { access_token := some "newtok", error := none, error_description := none }
    { id := 12345, login := "u", name := some "GN", email := some "a@b.com",
      avatar_url := "av" }
    (.ok [])
    { users := [{ id := 1, email := some "a@b.com", passwordHash := none,
                  emailVerified := true, name := some "N", avatarUrl := none }],
      accounts := [{ id := 2, userId := 1, provider := "github",
                     providerAccountId := "12345", accessToken := "old" }],
      tokens := [], nextId := 3 }
    { id := 2, userId := 1, provider := "github",
      providerAccountId := "12345", accessToken := "old" }
    { id := 1, email := some "a@b.com", passwordHash := none,
      emailVerified := true, name := some "N", avatarUrl := none }
    rfl rfl rfl rfl
  exact ⟨rfl, h.1, by rw [h.2.2.1]; rfl⟩

/-- C1 counterexample: with no profile email and a failed emails fetch,
`githubAuth` creates the placeholder user with emailVerified=false and
still mints a session token for it — refuting the universal "no flow ever
issues a session token for a user whose emailVerified remains false". -/
theorem c1_placeholder_user_gets_token :
    (githubAuth { access_token := some "at", error := none, error_description := none }
      (.ok { id := 7, login := "u", name := none, email := none, avatar_url := "av" })
      .fail DB.empty).1 = .ok { userId := 0 } ∧
    ∃ u ∈ ((githubAuth { access_token := some "at", error := none, error_description := none }
      (.ok { id := 7, login := "u", name := none, email := none, avatar_url := "av" })
      .fail DB.empty).2).users, u.id = 0 ∧ u.emailVerified = false :=
  ⟨rfl, by decide⟩

/-- C1 (amended): login and verifyEmail mint only for a user that is
verified at (or set verified within) the operation, and the githubAuth
new-user branch with a resolved real email creates it verified before
minting; but the placeholder branch creates the user with
emailVerified=false and still mints a token, so the invariant is not
universal over githubAuth. -/
theorem c1_token_minting_verified_amended :
    (∀ email pw (db : DB) t, login email pw db = .ok t →
      ∃ u, db.findUserByEmail email = some u ∧ u.emailVerified = true ∧
        t.userId = u.id) ∧
    (∀ tok n (db : DB) t db2, verifyEmail tok n db = (.ok t, db2) →
      ∃ u ∈ db2.users, u.id = t.userId ∧ u.emailVerified = true) ∧
    (∀ tokenResp guser emailsResp (db : DB),
      strTruthy tokenResp.error = false →
      strTruthy tokenResp.access_token = true →
      db.findAccount "github" (toString guser.id) = none →
      db.users.find? (fun u =>
        u.email == resolvePrimaryEmail guser.email emailsResp) = none →
      strTruthy (resolvePrimaryEmail guser.email emailsResp) = true →
      ∃ u ∈ ((githubAuth tokenResp (.ok guser) emailsResp db).2).users,
        (githubAuth tokenResp (.ok guser) emailsResp db).1 =
          .ok { userId := u.id } ∧
        u.emailVerified = true) := by
  refine ⟨?_, ?_, ?_⟩
  · intro email pw db t h
    unfold login at h
    cases hf : db.findUserByEmail email with
    | none => rw [hf] at h; exact absurd h (by simp)
    | some u =>
      rw [hf] at h
      by_cases h1 : strTruthy u.passwordHash
      · by_cases h2 : u.emailVerified
        · by_cases h3 : verifyPassword pw (u.passwordHash.getD "")
          · simp [h1, h2, h3] at h
            exact ⟨u, rfl, h2, by rw [← h]⟩
          · simp [h1, h2, h3] at h
        · simp [h1, h2] at h
      · simp [h1] at h
  · intro tok n db t db2 h
    unfold verifyEmail at h
    cases hf : db.findToken tok with
    | none => rw [hf] at h; exact absurd h (by simp)
    | some vt =>
      rw [hf] at h
      by_cases hexp : vt.expiresAt < n
      · simp [hexp] at h
      · simp only [if_neg hexp] at h
        cases hu : db.findUserByEmail vt.email with
        | none => rw [hu] at h; exact absurd h (by simp)
        | some u =>
          rw [hu] at h
          have ht : t = { userId := u.id } := by
            have := congrArg Prod.fst h
            simpa using this.symm
          have hdb2 : db2 =
              (db.updateUser u.id (fun x => { x with emailVerified := true })).deleteTokenById
                vt.id := by
            have := congrArg Prod.snd h
            simpa using this.symm
          refine ⟨{ u with emailVerified := true }, ?_, by simp [ht], rfl⟩
          have hm := mem_updateUser_of_mem db u.id
            (fun x => { x with emailVerified := true }) u
            (List.mem_of_find?_eq_some hu) rfl
          rw [hdb2]
          simpa [DB.deleteTokenById] using hm
  · intro tokenResp guser emailsResp db herr hat hA hfind hpe
    have hrun : githubAuth tokenResp (.ok guser) emailsResp db =
        (.ok { userId := db.nextId },
         (db.createUserWithAccount
            (some (jsOr (resolvePrimaryEmail guser.email emailsResp)
              ("github_" ++ toString guser.id ++ "@placeholder.local")))
            (strTruthy (resolvePrimaryEmail guser.email emailsResp))
            (some (jsOr guser.name guser.login)) (some guser.avatar_url)
            "github" (toString guser.id) (tokenResp.access_token.getD "")).2) := by
      simp [githubAuth, herr, hat, hA, hpe, hfind, DB.createUserWithAccount]
    rw [hrun]
    refine ⟨{ id := db.nextId,
              email := some (jsOr (resolvePrimaryEmail guser.email emailsResp)
                ("github_" ++ toString guser.id ++ "@placeholder.local")),
              passwordHash := none,
              emailVerified := strTruthy (resolvePrimaryEmail guser.email emailsResp),
              name := some (jsOr guser.name guser.login),
              avatarUrl := some guser.avatar_url }, ?_, rfl, hpe⟩
    simp [DB.createUserWithAccount]

/-- C1 amended witness: a successful password login for a verified user
yields a token carrying that user's id. -/
theorem c1_token_minting_verified_amended_witness :
    login "a@b.com" "Test123!@#"
      { users := [{ id := 5, email := some "a@b.com",
                    passwordHash := some (hashPassword "Test123!@#"),
                    emailVerified := true, name := none, avatarUrl := none }],
        accounts := [], tokens := [], nextId := 6 } = .ok { userId := 5 } ∧
    ∃ u, ({ users := [{ id := 5, email := some "a@b.com",
                        passwordHash := some (hashPassword "Test123!@#"),
                        emailVerified := true, name := none, avatarUrl := none }],
            accounts := [], tokens := [], nextId := 6 } : DB).findUserByEmail "a@b.com"
        = some u ∧ u.emailVerified = true ∧
      (5 : Nat) = u.id :=
  ⟨rfl, c1_token_minting_verified_amended.1 "a@b.com" "Test123!@#"
    { users := [{ id := 5, email := some "a@b.com",
                  passwordHash := some (hashPassword "Test123!@#"),
                  emailVerified := true, name := none, avatarUrl := none }],
      accounts := [], tokens := [], nextId := 6 }
    { userId := 5 } rfl⟩

/-- C2 counterexample: a failed delivery (`resend` resolved with an error
field) still lets `resendVerification` return the success message — the
failure is not surfaced to the caller. -/
theorem c2_failed_send_still_success :
    (sendVerificationEmail (.apiError "boom")).success = false ∧
    (resendVerification "a@b.com" "tk" 1000 (.apiError "boom")
      { users := [{ id := 0, email := some "a@b.com", passwordHash := none,
                    emailVerified := false, name := none, avatarUrl := none }],
        accounts := [], tokens := [], nextId := 1 }).1 =
      .ok { message := resendMessage } :=
  ⟨rfl, rfl⟩

/-- C2 (amended): resendVerification does await the send, but
`sendVerificationEmail` never rejects — it reports failure only through
its `{success: false, error}` return value — and `resendVerification`
discards that value, so, exactly like signup's fire-and-forget dispatch,
a delivery failure is never surfaced: both mutations' results are
independent of the send outcome, and the user-exists-unverified resend
always returns the success message. -/
theorem c2_send_failure_not_surfaced_amended :
    (∀ email tk n (o : SendOutcome) (db : DB) u,
      db.findUserByEmail email = some u → u.emailVerified = false →
      (resendVerification email tk n o db).1 = .ok { message := resendMessage }) ∧
    (∀ o, (sendVerificationEmail o).success = false ↔ o ≠ .delivered) ∧
    (∀ email pw tk n (o1 o2 : SendOutcome) (db : DB),
      signup email pw tk n o1 db = signup email pw tk n o2 db) ∧
    (∀ email tk n (o1 o2 : SendOutcome) (db : DB),
      resendVerification email tk n o1 db = resendVerification email tk n o2 db) := by
  refine ⟨?_, ?_, ?_, ?_⟩
  · intro email tk n o db u hu hv
    simp [resendVerification, hu, hv]
  · intro o
    cases o <;> simp [sendVerificationEmail]
  · intro email pw tk n o1 o2 db
    unfold signup
    cases hf : db.findUserByEmail email <;> simp
  · intro email tk n o1 o2 db
    unfold resendVerification
    cases hf : db.findUserByEmail email with
    | none => simp
    | some u => by_cases hv : u.emailVerified <;> simp [hv]

/-- C2 amended witness: concrete unverified user; a resend whose send
fails still reports success. -/
theorem c2_send_failure_not_surfaced_amended_witness :
    (({ users := [{ id := 0, email := some "a@b.com", passwordHash := none,
                    emailVerified := false, name := none, avatarUrl := none }],
        accounts := [], tokens := [], nextId := 1 } : DB).findUserByEmail "a@b.com"
      = some { id := 0, email := some "a@b.com", passwordHash := none,
               emailVerified := false, name := none, avatarUrl := none }) ∧
    (resendVerification "a@b.com" "tk" 1000 (.exception "socket hang up")
      { users := [{ id := 0, email := some "a@b.com", passwordHash := none,
                    emailVerified := false, name := none, avatarUrl := none }],
        accounts := [], tokens := [], nextId := 1 }).1 =
      .ok { message := resendMessage } :=
  ⟨rfl, c2_send_failure_not_surfaced_amended.1 "a@b.com" "tk" 1000
    (.exception "socket hang up")
    { users := [{ id := 0, email := some "a@b.com", passwordHash := none,
                  emailVerified := false, name := none, avatarUrl := none }],
      accounts := [], tokens := [], nextId := 1 }
    { id := 0, email := some "a@b.com", passwordHash := none,
      emailVerified := false, name := none, avatarUrl := none } rfl rfl⟩

/-- C6: evaluating `login` on concrete stores shows the documented check
order — NOT_FOUND "user not found" for an OAuth-only user without a
password hash, FORBIDDEN for an unverified user even with a wrong
password, UNAUTHORIZED for a verified user with a wrong password — but
the UNAUTHORIZED message the code throws is "invalid credentials", not
the "Invalid Credentials" its own unit test and the spec require. -/
theorem c6_login_unauthorized_message_mismatch :
    login "a@b.com" "Test123!@#"
      { users := [{ id := 0, email := some "a@b.com", passwordHash := none,
                    emailVerified := true, name := none, avatarUrl := none }],
        accounts := [], tokens := [], nextId := 1 } =
      .error { code := .NOT_FOUND, message := "user not found" } ∧
    login "a@b.com" "Wrong123!@#"
      { users := [{ id := 0, email := some "a@b.com",
                    passwordHash := some (hashPassword "Test123!@#"),
                    emailVerified := false, name := none, avatarUrl := none }],
        accounts := [], tokens := [], nextId := 1 } =
      .error { code := .FORBIDDEN,
               message := "Please verify your email before logging in" } ∧
    login "a@b.com" "Wrong123!@#"
      { users := [{ id := 0, email := some "a@b.com",
                    passwordHash := some (hashPassword "Test123!@#"),
                    emailVerified := true, name := none, avatarUrl := none }],
        accounts := [], tokens := [], nextId := 1 } =
      .error { code := .UNAUTHORIZED, message := "invalid credentials" } ∧
    "invalid credentials" ≠ "Invalid Credentials" :=
  ⟨rfl, rfl, rfl, by decide⟩

end T3
